import Mathlib

/-!
Shallow embedding of the speed-camera backend (FastAPI + PostGIS) core:
the entity records of src/database/models.py, the spatial query and create
functions of src/database/queries.py, the camera create / delete / combined
nearby endpoints of src/backend/main.py, and the bulk importers
src/database/import_data.py and src/database/import_zones.py.

Floats are modelled as rationals. The PostGIS geodesic distance between two
WGS84 points is kept abstract as a parameter gdist; ST_DWithin on geography
columns means distance in meters at most the tolerance, and ORDER BY the
ST_Distance column means sorting by that key. SQL ORDER BY promises only
sortedness by the key, which insertion sort refines. Uuids are modelled as
naturals, timestamps as rationals.
-/

namespace SpeedCam

/-- WGS84 coordinate pair, latitude then longitude, rationals for the floats. -/
structure Loc where
  lat : ℚ
  lon : ℚ
deriving DecidableEq

/-- Speed camera row, src/database/models.py class SpeedCamera: point geography,
speed limit, camera type string, optional facing direction, and the column
defaults verified=False, verification_count=0, confidence_score=0.50, with a
nullable reporter reference. -/
structure SpeedCamera where
  id : Nat
  location : Loc
  speed_limit_kmh : Int
  camera_type : String
  direction_degrees : Option Int := none
  verified : Bool := false
  verification_count : Int := 0
  confidence_score : ℚ := 1/2
  reported_by : Option Nat := none
  notes : Option String := none
deriving DecidableEq

/-- Hazard detection row, src/database/models.py class HazardDetection: point
geography, type and severity strings, confidence, optional expiry timestamp,
is_active flag defaulting to True. -/
structure HazardDetection where
  id : Nat
  location : Loc
  hazard_type : String
  severity : String
  confidence_score : ℚ := 1/2
  detected_by : Option Nat := none
  expires_at : Option ℚ := none
  verified : Bool := false
  verification_count : Int := 0
  is_active : Bool := true
  description : Option String := none
  image_url : Option String := none
deriving DecidableEq

/-- Road speed limit row, src/database/models.py class RoadSpeedLimit,
with the linestring geometry as a vertex list. -/
structure RoadSpeedLimit where
  id : Nat
  road_segment : List Loc
  speed_limit_kmh : Int
  road_name : Option String := none
  road_type : Option String := none
  direction : Option String := none
  verified : Bool := false
  verification_count : Int := 0
  confidence_score : ℚ := 1/2
deriving DecidableEq

/-- Hazardous road segment row, src/database/models.py class
HazardousRoadSegment. -/
structure HazardousRoadSegment where
  id : Nat
  road_segment : List Loc
  hazard_type : String
  severity : String := "medium"
  road_name : Option String := none
  osm_id : Option String := none
  confidence_score : ℚ := 1/2
deriving DecidableEq

/-- School or hospital zone row, src/database/models.py classes SchoolZone and
HospitalZone, which have the identical shape: point geography, name, address,
optional unique external source id. -/
structure SchoolZone where
  id : Nat
  location : Loc
  name : Option String := none
  address : Option String := none
  osm_id : Option String := none
deriving DecidableEq

/-- Sort a list by a rational key, ascending. This embeds the SQL ORDER BY on
the ST_Distance column: the database promises sortedness by the key and an
arbitrary order on ties, which insertion sort refines. -/
def sortByKey {α : Type} (key : α → ℚ) (l : List α) : List α :=
  @List.insertionSort α (fun a b => key a ≤ key b)
    (fun a b => inferInstanceAs (Decidable (key a ≤ key b))) l

/-- get_nearby_speed_cameras, src/database/queries.py lines 95 to 143:
WHERE ST_DWithin(location, point, radius_meters) on geography, the confidence
filter applied only when min_confidence is positive, the verified filter only
when requested, then ORDER BY ST_Distance ascending and LIMIT. -/
def get_nearby_speed_cameras (gdist : Loc → Loc → ℚ) (cams : List SpeedCamera)
    (center : Loc) (radius_meters : ℚ) (min_confidence : ℚ)
    (verified_only : Bool) (lim : Nat) : List SpeedCamera :=
  let q := cams.filter (fun c => decide (gdist c.location center ≤ radius_meters))
  let q := if 0 < min_confidence then
    q.filter (fun c => decide (min_confidence ≤ c.confidence_score)) else q
  let q := if verified_only then q.filter (fun c => c.verified) else q
  (sortByKey (fun c => gdist c.location center) q).take lim

/-- The active-hazard condition of get_nearby_hazards, src/database/queries.py
lines 238 to 247: is_active AND (expires_at IS NULL OR expires_at > now()),
evaluated against the clock at query time. -/
def hazardActive (now : ℚ) (h : HazardDetection) : Bool :=
  h.is_active && (match h.expires_at with
    | none => true
    | some t => decide (now < t))

/-- get_nearby_hazards, src/database/queries.py lines 198 to 254: radius
filter, conditional confidence filter, the active-only filter of hazardActive,
then ORDER BY distance and LIMIT. -/
def get_nearby_hazards (gdist : Loc → Loc → ℚ) (hzs : List HazardDetection)
    (center : Loc) (radius_meters : ℚ) (min_confidence : ℚ)
    (active_only : Bool) (now : ℚ) (lim : Nat) : List HazardDetection :=
  let q := hzs.filter (fun h => decide (gdist h.location center ≤ radius_meters))
  let q := if 0 < min_confidence then
    q.filter (fun h => decide (min_confidence ≤ h.confidence_score)) else q
  let q := if active_only then q.filter (hazardActive now) else q
  (sortByKey (fun h => gdist h.location center) q).take lim

/-- create_speed_camera, src/database/queries.py lines 347 to 391: builds the
record from the given fields with no validation of any of them; verified and
verification_count take the model column defaults; freshId stands for the
uuid4 column default. -/
def create_speed_camera (freshId : Nat) (latitude longitude : ℚ)
    (speed_limit_kmh : Int) (camera_type : String)
    (direction_degrees : Option Int) (confidence_score : ℚ)
    (reported_by : Option Nat) (notes : Option String) : SpeedCamera :=
  { id := freshId
    location := ⟨latitude, longitude⟩
    speed_limit_kmh := speed_limit_kmh
    camera_type := camera_type
    direction_degrees := direction_degrees
    confidence_score := confidence_score
    reported_by := reported_by
    notes := notes }

/-- CreateCameraRequest, src/backend/main.py lines 107 to 113: the pydantic
body model declares bare types and defaults only, with no range constraint on
any field and no enum on camera_type. -/
structure CreateCameraRequest where
  latitude : ℚ
  longitude : ℚ
  speed_limit_kmh : Int
  camera_type : String := "fixed"
  direction_degrees : Option Int := none
  notes : Option String := none
deriving DecidableEq

/-- POST /api/cameras handler create_camera, src/backend/main.py lines 1232 to
1279: the request fields go straight to create_speed_camera with
confidence_score fixed at 0.50 and reported_by the authenticated user. There
is no field-range or enum check anywhere on this path, so the insert and
commit always happen; the handler returns the created camera. -/
def create_camera (store : List SpeedCamera) (freshId userId : Nat)
    (req : CreateCameraRequest) : SpeedCamera × List SpeedCamera :=
  let cam := create_speed_camera freshId req.latitude req.longitude
    req.speed_limit_kmh req.camera_type req.direction_degrees (1/2)
    (some userId) req.notes
  (cam, store ++ [cam])

/-- Outcome of the delete endpoint: 204 success, 404 not found, 403 forbidden. -/
inductive DeleteOutcome where
  | success
  | notFound
  | forbidden
deriving DecidableEq

/-- DELETE /api/cameras handler delete_camera, src/backend/main.py lines 1282
to 1301: look the camera up by primary key (404 when absent), compare its
reported_by against the requesting user id (403 on any mismatch, which
includes a NULL reporter), delete only on an exact match. The returned store
is the database content afterward, unchanged on both error outcomes. -/
def delete_camera (store : List SpeedCamera) (camera_id : Nat)
    (requesterId : Nat) : DeleteOutcome × List SpeedCamera :=
  match store.find? (fun c => c.id == camera_id) with
  | none => (DeleteOutcome.notFound, store)
  | some cam =>
    if cam.reported_by == some requesterId then
      (DeleteOutcome.success, store.eraseP (fun c => c.id == camera_id))
    else (DeleteOutcome.forbidden, store)

/-- Per-category counts of the combined navigation payload. -/
structure NavCounts where
  cameras : Nat
  speed_limits : Nat
  hazards : Nat
  hazardous_roads : Nat
deriving DecidableEq

/-- The combined navigation payload of GET /api/navigation/nearby. -/
structure NavAggregate where
  cameras : List SpeedCamera
  speed_limits : List RoadSpeedLimit
  hazards : List HazardDetection
  hazardous_roads : List HazardousRoadSegment
  counts : NavCounts
deriving DecidableEq

/-- GET /api/navigation/nearby handler get_navigation_data_nearby,
src/backend/main.py lines 855 to 997: the four per-category queries run in
sequence inside one try block and any raised error aborts the handler, which
re-raises it as HTTP 500. The aggregate with its per-category counts is built
only when all four succeed. Each argument is the outcome of one category
query. -/
def get_navigation_data_nearby
    (cams : Except String (List SpeedCamera))
    (speed_lims : Except String (List RoadSpeedLimit))
    (hzs : Except String (List HazardDetection))
    (roads : Except String (List HazardousRoadSegment)) :
    Except String NavAggregate := do
  let c ← cams
  let s ← speed_lims
  let h ← hzs
  let r ← roads
  pure
    { cameras := c
      speed_limits := s
      hazards := h
      hazardous_roads := r
      counts := ⟨c.length, s.length, h.length, r.length⟩ }

/-- One camera entry of a bulk-import JSON file, after the string parsing glue
of import_speed_cameras, src/database/import_data.py lines 62 to 98: raw
coordinates, the speed limit already parsed with its default of 60, the raw
camera-type letter, the raw direction. Street and city feed the notes text. -/
structure CameraSubmission where
  latitude : ℚ
  longitude : ℚ
  speed_limit_kmh : Int
  camera_type_char : String
  direction : Option Int
  street : String := "Unknown"
  city : String := "Unknown"
deriving DecidableEq

/-- camera_type_map of import_speed_cameras, src/database/import_data.py lines
81 to 87: letters G, M, A map to the three camera kinds, anything else falls
back to fixed. -/
def camera_type_map (c : String) : String :=
  if c = "G" then "fixed"
  else if c = "M" then "mobile"
  else if c = "A" then "average_speed"
  else "fixed"

/-- Direction parsing of import_speed_cameras, src/database/import_data.py
lines 89 to 98: a direction outside 0 to 360 inclusive becomes NULL. -/
def parse_direction (d : Option Int) : Option Int :=
  match d with
  | none => none
  | some v => if 0 ≤ v ∧ v ≤ 360 then some v else none

/-- Session state during a bulk camera import. The session is built with
autoflush=False, src/database/database.py line 75, so rows added but not yet
committed are invisible to the dedup SELECT: committed holds rows a SELECT
sees, pending holds rows added since the last commit. -/
structure CamImportState where
  committed : List SpeedCamera
  pending : List SpeedCamera
  n_imported : Nat
  n_skipped : Nat
deriving DecidableEq

/-- A session commit: pending rows become visible. -/
def camCommit (st : CamImportState) : CamImportState :=
  { st with committed := st.committed ++ st.pending, pending := [] }

/-- The camera row built for one imported entry, src/database/import_data.py
lines 119 to 129: confidence_score 0.80, verified True, verification_count 1;
n stands for the uuid4 column default. -/
def importedCamera (n : Nat) (sub : CameraSubmission) : SpeedCamera :=
  { id := n
    location := ⟨sub.latitude, sub.longitude⟩
    speed_limit_kmh := sub.speed_limit_kmh
    camera_type := camera_type_map sub.camera_type_char
    direction_degrees := parse_direction sub.direction
    confidence_score := 4/5
    verified := true
    verification_count := 1
    notes := some ("Imported from " ++ sub.street ++ ", " ++ sub.city) }

/-- Loop body of import_speed_cameras, src/database/import_data.py lines 62 to
142: skip on out-of-range coordinates; skip when some visible camera is
within 10 meters of the submitted point (ST_DWithin on geography, meters);
otherwise insert a camera with confidence_score 0.80, verified True,
verification_count 1, and commit every 100 inserts. -/
def import_camera_step (gdist : Loc → Loc → ℚ) (st : CamImportState)
    (sub : CameraSubmission) : CamImportState :=
  if ¬((-90 ≤ sub.latitude ∧ sub.latitude ≤ 90) ∧
      (-180 ≤ sub.longitude ∧ sub.longitude ≤ 180)) then
    { st with n_skipped := st.n_skipped + 1 }
  else if st.committed.any
      (fun c => decide (gdist c.location ⟨sub.latitude, sub.longitude⟩ ≤ 10)) then
    { st with n_skipped := st.n_skipped + 1 }
  else
    let cam := importedCamera (st.committed.length + st.pending.length) sub
    let st' := { st with pending := st.pending ++ [cam],
                         n_imported := st.n_imported + 1 }
    if st'.n_imported % 100 == 0 then camCommit st' else st'

/-- import_speed_cameras, src/database/import_data.py lines 40 to 147: fold the
loop body over the file entries starting from the committed store, then the
final commit. After it, pending is empty and committed is the database
content. -/
def import_speed_cameras (gdist : Loc → Loc → ℚ) (store : List SpeedCamera)
    (subs : List CameraSubmission) : CamImportState :=
  camCommit (subs.foldl (import_camera_step gdist) ⟨store, [], 0, 0⟩)

/-- One element of a zone dataset after the JSON glue of import_zones,
src/database/import_zones.py lines 52 to 87: the element type, the id already
passed through str so it is always a string, optional coordinates, and the
extracted name and address. -/
structure OsmElement where
  typ : String
  osm_id : String
  lat : Option ℚ
  lon : Option ℚ
  name : String
  address : String
deriving DecidableEq

/-- The pre-fetch of import_zones, src/database/import_zones.py lines 24 to
37: the osm_id values already in the table that are truthy in Python, which
keeps exactly the non-null, non-empty strings. -/
def existingOsmIds (zones : List SchoolZone) : List String :=
  zones.filterMap (fun z => match z.osm_id with
    | some s => if s = "" then none else some s
    | none => none)

/-- State during a zone import: the table content and the seen-id set. -/
structure ZoneImportState where
  store : List SchoolZone
  seen : List String
  n_imported : Nat
deriving DecidableEq

/-- The zone row built for one dataset element, src/database/import_zones.py
lines 89 to 102; n stands for the uuid4 column default. -/
def zoneOf (n : Nat) (e : OsmElement) (la lo : ℚ) : SchoolZone :=
  { id := n
    location := ⟨la, lo⟩
    name := some e.name
    address := some e.address
    osm_id := some e.osm_id }

/-- Loop body of import_zones, src/database/import_zones.py lines 52 to 115:
non-node elements are skipped; an osm_id already seen, whether pre-fetched
from the table or marked earlier in the same run, is skipped as a duplicate;
otherwise the id is marked seen before the coordinate presence check, and a
record is inserted only when both coordinates are present. -/
def import_zone_step (st : ZoneImportState) (e : OsmElement) : ZoneImportState :=
  if e.typ ≠ "node" then st
  else if e.osm_id ∈ st.seen then st
  else
    match e.lat, e.lon with
    | some la, some lo =>
      { store := st.store ++ [zoneOf st.store.length e la lo]
        seen := e.osm_id :: st.seen
        n_imported := st.n_imported + 1 }
    | _, _ => { st with seen := e.osm_id :: st.seen }

/-- import_zones, src/database/import_zones.py lines 21 to 119: pre-fetch the
truthy existing ids, then fold the loop body over the dataset. The zone rows
carry a unique constraint on osm_id in src/database/models.py line 317, so in
PostgreSQL a duplicate non-null osm_id reaching the insert would fail the
batch commit; the function itself performs only the seen-set dedup modelled
here. -/
def import_zones (store : List SchoolZone) (es : List OsmElement) :
    List SchoolZone :=
  (es.foldl import_zone_step ⟨store, existingOsmIds store, 0⟩).store

/-! Concrete fixtures used to instantiate the theorems below on closed inputs.
gdistTaxi is one concrete stand-in for the abstract geodesic distance; the
records are small concrete rows and requests. -/

/-- A concrete distance function: the discrete metric scaled to 1000 meters,
zero between equal points and 1000 otherwise. -/
def gdistTaxi (a b : Loc) : ℚ :=
  if a = b then 0 else 1000

/-- A concrete stored camera for witness instantiations. -/
def camW : SpeedCamera :=
  { id := 1, location := ⟨13, 80⟩, speed_limit_kmh := 60,
    camera_type := "fixed", confidence_score := 1 }

/-- A concrete camera owned by user 5. -/
def camO : SpeedCamera :=
  { id := 1, location := ⟨13, 80⟩, speed_limit_kmh := 60,
    camera_type := "fixed", confidence_score := 1, reported_by := some 5 }

/-- A concrete camera with a NULL reporter, as bulk import produces. -/
def camN : SpeedCamera :=
  { id := 1, location := ⟨13, 80⟩, speed_limit_kmh := 60,
    camera_type := "fixed", verified := true, verification_count := 1,
    confidence_score := 1 }

/-- A concrete hazard that is active but already expired at time 10. -/
def hzW : HazardDetection :=
  { id := 1, location := ⟨13, 80⟩, hazard_type := "pothole",
    severity := "medium", confidence_score := 1, expires_at := some 5 }

/-- A concrete import file entry. -/
def subW : CameraSubmission :=
  { latitude := 13, longitude := 80, speed_limit_kmh := 60,
    camera_type_char := "G", direction := none }

/-- A create request whose speed limit, camera type and direction all violate
the ranges the specification requires to be validated. -/
def badReq : CreateCameraRequest :=
  { latitude := 13, longitude := 80, speed_limit_kmh := 500,
    camera_type := "drone", direction_degrees := some 999 }

/-- A node element with an empty-string external id. -/
def emptyIdElem : OsmElement :=
  { typ := "node", osm_id := "", lat := some 13, lon := some 80,
    name := "X", address := "Y" }

/-- A node element with an ordinary non-empty external id. -/
def goodIdElem : OsmElement :=
  { typ := "node", osm_id := "42", lat := some 13, lon := some 80,
    name := "X", address := "Y" }

/-- Whether an Except outcome is a success. -/
def exceptOk {ε α : Type} : Except ε α → Bool
  | Except.ok _ => true
  | Except.error _ => false

/-! Shared helper lemmas. -/

lemma mem_of_ite_filter {α : Type} {P : Prop} [Decidable P] {p : α → Bool}
    {l : List α} {c : α} (h : c ∈ (if P then l.filter p else l)) :
    c ∈ l ∧ (P → p c = true) := by
  by_cases hP : P
  · simp only [if_pos hP, List.mem_filter] at h
    exact ⟨h.1, fun _ => h.2⟩
  · simp only [if_neg hP] at h
    exact ⟨h, fun hc => absurd hc hP⟩

lemma sortByKey_perm {α : Type} (key : α → ℚ) (l : List α) :
    List.Perm (sortByKey key l) l :=
  List.perm_insertionSort _ l

lemma sortByKey_pairwise {α : Type} (key : α → ℚ) (l : List α) :
    (sortByKey key l).Pairwise (fun a b => key a ≤ key b) := by
  haveI : IsTotal α (fun a b => key a ≤ key b) := ⟨fun a b => le_total _ _⟩
  haveI : IsTrans α (fun a b => key a ≤ key b) :=
    ⟨fun _ _ _ hab hbc => le_trans hab hbc⟩
  exact List.sorted_insertionSort _ l

lemma mem_get_nearby_speed_cameras {gdist : Loc → Loc → ℚ}
    {cams : List SpeedCamera} {center : Loc} {radius mc : ℚ} {vOnly : Bool}
    {lim : Nat} {c : SpeedCamera}
    (h : c ∈ get_nearby_speed_cameras gdist cams center radius mc vOnly lim) :
    c ∈ cams ∧ gdist c.location center ≤ radius ∧
      (0 < mc → mc ≤ c.confidence_score) ∧ (vOnly = true → c.verified = true) := by
  unfold get_nearby_speed_cameras at h
  have h1 := (sortByKey_perm _ _).mem_iff.mp (List.take_subset _ _ h)
  have h2 := mem_of_ite_filter h1
  have h3 := mem_of_ite_filter h2.1
  have h4 := h3.1
  simp only [List.mem_filter, decide_eq_true_eq] at h4
  refine ⟨h4.1, h4.2, fun hmc => ?_, fun hv => ?_⟩
  · simpa [decide_eq_true_eq] using h3.2 hmc
  · simpa using h2.2 hv

lemma mem_get_nearby_hazards {gdist : Loc → Loc → ℚ}
    {hzs : List HazardDetection} {center : Loc} {radius mc : ℚ}
    {aOnly : Bool} {now : ℚ} {lim : Nat} {x : HazardDetection}
    (h : x ∈ get_nearby_hazards gdist hzs center radius mc aOnly now lim) :
    x ∈ hzs ∧ gdist x.location center ≤ radius ∧
      (0 < mc → mc ≤ x.confidence_score) ∧
      (aOnly = true → hazardActive now x = true) := by
  unfold get_nearby_hazards at h
  have h1 := (sortByKey_perm _ _).mem_iff.mp (List.take_subset _ _ h)
  have h2 := mem_of_ite_filter h1
  have h3 := mem_of_ite_filter h2.1
  have h4 := h3.1
  simp only [List.mem_filter, decide_eq_true_eq] at h4
  refine ⟨h4.1, h4.2, fun hmc => ?_, fun ha => ?_⟩
  · simpa [decide_eq_true_eq] using h3.2 hmc
  · simpa using h2.2 ha

lemma delete_camera_not_owner {store : List SpeedCamera} {cid rid : Nat}
    {cam : SpeedCamera}
    (hfind : store.find? (fun c => c.id == cid) = some cam)
    (hne : cam.reported_by ≠ some rid) :
    delete_camera store cid rid = (DeleteOutcome.forbidden, store) := by
  unfold delete_camera
  rw [hfind]
  have hb : (cam.reported_by == some rid) = false := beq_eq_false_iff_ne.mpr hne
  simp [hb]

lemma import_speed_cameras_single {gdist : Loc → Loc → ℚ}
    {store : List SpeedCamera} {sub : CameraSubmission}
    (hco : (-90 ≤ sub.latitude ∧ sub.latitude ≤ 90) ∧
      (-180 ≤ sub.longitude ∧ sub.longitude ≤ 180))
    (hnew : ∀ c ∈ store, ¬(gdist c.location ⟨sub.latitude, sub.longitude⟩ ≤ 10)) :
    import_speed_cameras gdist store [sub] =
      ⟨store ++ [importedCamera store.length sub], [], 1, 0⟩ := by
  have hany : store.any
      (fun c => decide (gdist c.location ⟨sub.latitude, sub.longitude⟩ ≤ 10)) = false := by
    rw [List.any_eq_false]
    intro c hc
    simpa using hnew c hc
  unfold import_speed_cameras
  simp only [List.foldl]
  unfold import_camera_step
  rw [if_neg (not_not_intro hco)]
  simp only [hany, Bool.false_eq_true, if_false]
  simp [camCommit]

lemma import_speed_cameras_single_dup {gdist : Loc → Loc → ℚ}
    {store : List SpeedCamera} {sub : CameraSubmission}
    (hdup : ∃ c ∈ store, gdist c.location ⟨sub.latitude, sub.longitude⟩ ≤ 10) :
    import_speed_cameras gdist store [sub] = ⟨store, [], 0, 1⟩ := by
  have hany : store.any
      (fun c => decide (gdist c.location ⟨sub.latitude, sub.longitude⟩ ≤ 10)) = true := by
    rw [List.any_eq_true]
    rcases hdup with ⟨c, hc, hd⟩
    exact ⟨c, hc, by simpa using hd⟩
  unfold import_speed_cameras
  simp only [List.foldl]
  unfold import_camera_step
  by_cases hco : (-90 ≤ sub.latitude ∧ sub.latitude ≤ 90) ∧
      (-180 ≤ sub.longitude ∧ sub.longitude ≤ 180)
  · rw [if_neg (not_not_intro hco)]
    simp [hany, camCommit]
  · rw [if_pos hco]
    simp [camCommit]

lemma import_zone_step_non_node {st : ZoneImportState} {e : OsmElement}
    (h : e.typ ≠ "node") : import_zone_step st e = st := by
  unfold import_zone_step
  rw [if_pos h]

lemma import_zone_step_dup {st : ZoneImportState} {e : OsmElement}
    (ht : e.typ = "node") (h : e.osm_id ∈ st.seen) :
    import_zone_step st e = st := by
  unfold import_zone_step
  rw [if_neg (not_not_intro ht), if_pos h]

lemma import_zone_step_mark {st : ZoneImportState} {e : OsmElement}
    (ht : e.typ = "node") (hnm : e.osm_id ∉ st.seen)
    (hmiss : e.lat = none ∨ e.lon = none) :
    import_zone_step st e = { st with seen := e.osm_id :: st.seen } := by
  unfold import_zone_step
  rw [if_neg (not_not_intro ht), if_neg hnm]
  rcases hmiss with h | h <;> rcases hla : e.lat with _ | la <;>
    rcases hlo : e.lon with _ | lo <;> simp_all

lemma import_zone_step_ins {st : ZoneImportState} {e : OsmElement} {la lo : ℚ}
    (ht : e.typ = "node") (hnm : e.osm_id ∉ st.seen)
    (hla : e.lat = some la) (hlo : e.lon = some lo) :
    import_zone_step st e =
      { store := st.store ++ [zoneOf st.store.length e la lo]
        seen := e.osm_id :: st.seen
        n_imported := st.n_imported + 1 } := by
  unfold import_zone_step
  rw [if_neg (not_not_intro ht), if_neg hnm, hla, hlo]

lemma zoneRun_store_grows : ∀ (es : List OsmElement) (st : ZoneImportState),
    st.store <+: (es.foldl import_zone_step st).store := by
  intro es
  induction es with
  | nil => intro st; exact List.prefix_rfl
  | cons e es ih =>
    intro st
    have hstep : st.store <+: (import_zone_step st e).store := by
      unfold import_zone_step
      by_cases ht : e.typ ≠ "node"
      · rw [if_pos ht]
      · rw [if_neg ht]
        by_cases hm : e.osm_id ∈ st.seen
        · rw [if_pos hm]
        · rw [if_neg hm]
          rcases e.lat with _ | la <;> rcases e.lon with _ | lo <;>
            simp [List.prefix_append]
    exact hstep.trans (ih (import_zone_step st e))

lemma mem_existingOsmIds_of {zs : List SchoolZone} {z : SchoolZone} {s : String}
    (hz : z ∈ zs) (hid : z.osm_id = some s) (hne : s ≠ "") :
    s ∈ existingOsmIds zs := by
  refine List.mem_filterMap.mpr ⟨z, hz, ?_⟩
  rw [hid]
  simp [hne]

lemma existingOsmIds_mono {zs zs' : List SchoolZone} (h : zs ⊆ zs') :
    existingOsmIds zs ⊆ existingOsmIds zs' := by
  intro s hs
  rcases List.mem_filterMap.mp hs with ⟨z, hz, he⟩
  exact List.mem_filterMap.mpr ⟨z, h hz, he⟩

lemma zoneRun_noop : ∀ (es : List OsmElement) (sa : ZoneImportState)
    (S : List SchoolZone) (seenb : List String) (nb : Nat),
    (∀ e ∈ es, e.osm_id ≠ "") →
    sa.seen ⊆ seenb →
    existingOsmIds (es.foldl import_zone_step sa).store ⊆ seenb →
    (es.foldl import_zone_step ⟨S, seenb, nb⟩).store = S := by
  intro es
  induction es with
  | nil => intro sa S seenb nb _ _ _; rfl
  | cons e es ih =>
    intro sa S seenb nb hids hsub hex
    have hide : e.osm_id ≠ "" := hids e (List.mem_cons_self e es)
    have hids' : ∀ x ∈ es, x.osm_id ≠ "" :=
      fun x hx => hids x (List.mem_cons_of_mem e hx)
    simp only [List.foldl_cons] at hex ⊢
    by_cases ht : e.typ = "node"
    · by_cases hma : e.osm_id ∈ sa.seen
      · -- first run skipped the element as a duplicate; so does the second
        have hmb : e.osm_id ∈ seenb := hsub hma
        rw [import_zone_step_dup ht hmb]
        rw [import_zone_step_dup ht hma] at hex
        exact ih sa S seenb nb hids' hsub hex
      · rcases hla : e.lat with _ | la
        · -- missing latitude: both runs only mark the id as seen
          rw [import_zone_step_mark ht hma (Or.inl hla)] at hex
          by_cases hmb : e.osm_id ∈ seenb
          · rw [import_zone_step_dup ht hmb]
            refine ih _ S seenb nb hids' ?_ hex
            exact List.cons_subset.mpr ⟨hmb, hsub⟩
          · rw [import_zone_step_mark ht hmb (Or.inl hla)]
            refine ih ⟨sa.store, e.osm_id :: sa.seen, sa.n_imported⟩ S
              (e.osm_id :: seenb) nb hids' (List.cons_subset_cons _ hsub) ?_
            exact fun s hs => List.mem_cons_of_mem _ (hex hs)
        · rcases hlo : e.lon with _ | lo
          · rw [import_zone_step_mark ht hma (Or.inr hlo)] at hex
            by_cases hmb : e.osm_id ∈ seenb
            · rw [import_zone_step_dup ht hmb]
              refine ih _ S seenb nb hids' ?_ hex
              exact List.cons_subset.mpr ⟨hmb, hsub⟩
            · rw [import_zone_step_mark ht hmb (Or.inr hlo)]
              refine ih ⟨sa.store, e.osm_id :: sa.seen, sa.n_imported⟩ S
                (e.osm_id :: seenb) nb hids' (List.cons_subset_cons _ hsub) ?_
              exact fun s hs => List.mem_cons_of_mem _ (hex hs)
          · -- both coordinates present: the first run inserted the row, so
            -- its id is among the prefetched ids of the second run
            rw [import_zone_step_ins ht hma hla hlo] at hex
            have hmb : e.osm_id ∈ seenb := by
              apply hex
              have hzmem : zoneOf sa.store.length e la lo ∈
                  (es.foldl import_zone_step
                    { store := sa.store ++ [zoneOf sa.store.length e la lo]
                      seen := e.osm_id :: sa.seen
                      n_imported := sa.n_imported + 1 }).store := by
                apply (zoneRun_store_grows es _).subset
                simp
              exact mem_existingOsmIds_of hzmem rfl hide
            rw [import_zone_step_dup ht hmb]
            refine ih _ S seenb nb hids' ?_ hex
            exact List.cons_subset.mpr ⟨hmb, hsub⟩
    · rw [import_zone_step_non_node ht]
      rw [import_zone_step_non_node ht] at hex
      exact ih sa S seenb nb hids' hsub hex

end SpeedCam

namespace SpeedCam

/-! The claim theorems. -/

/-- C3: every entity returned by a nearby radius query lies at geodesic
distance at most the requested radius from the query point, the sequence is
sorted by non-decreasing distance, and its length is at most the requested
limit; stated for the camera query and for the hazard query. -/
theorem C3_radius_sorted_limited (gdist : Loc → Loc → ℚ)
    (cams : List SpeedCamera) (hzs : List HazardDetection) (center : Loc)
    (radius mc : ℚ) (vOnly aOnly : Bool) (now : ℚ) (lim : Nat) :
    (∀ c ∈ get_nearby_speed_cameras gdist cams center radius mc vOnly lim,
      gdist c.location center ≤ radius) ∧
    (get_nearby_speed_cameras gdist cams center radius mc vOnly lim).Pairwise
      (fun a b => gdist a.location center ≤ gdist b.location center) ∧
    (get_nearby_speed_cameras gdist cams center radius mc vOnly lim).length ≤ lim ∧
    (∀ x ∈ get_nearby_hazards gdist hzs center radius mc aOnly now lim,
      gdist x.location center ≤ radius) ∧
    (get_nearby_hazards gdist hzs center radius mc aOnly now lim).Pairwise
      (fun a b => gdist a.location center ≤ gdist b.location center) ∧
    (get_nearby_hazards gdist hzs center radius mc aOnly now lim).length ≤ lim := by
  refine ⟨fun c hc => (mem_get_nearby_speed_cameras hc).2.1, ?_, ?_,
    fun x hx => (mem_get_nearby_hazards hx).2.1, ?_, ?_⟩
  · unfold get_nearby_speed_cameras
    exact (sortByKey_pairwise _ _).take
  · unfold get_nearby_speed_cameras
    simp [List.length_take]
  · unfold get_nearby_hazards
    exact (sortByKey_pairwise _ _).take
  · unfold get_nearby_hazards
    simp [List.length_take]

/-- C3 witness: the camera stored at the query point is returned by a concrete
query and the theorem bounds its distance by the radius. -/
theorem C3_witness : gdistTaxi camW.location ⟨13, 80⟩ ≤ 500 :=
  (C3_radius_sorted_limited gdistTaxi [camW] [] ⟨13, 80⟩ 500 0 false false 0
    10).1 camW (by decide)

/-- C4: under the database check constraint that stored confidence scores are
non-negative, no entity returned by a nearby query has confidence_score
strictly below the min_confidence argument: the query filters on it whenever
it is positive, and a non-positive threshold excludes nothing. -/
theorem C4_min_confidence_filter (gdist : Loc → Loc → ℚ)
    (cams : List SpeedCamera) (hzs : List HazardDetection) (center : Loc)
    (radius mc : ℚ) (vOnly aOnly : Bool) (now : ℚ) (lim : Nat)
    (hc : ∀ c ∈ cams, 0 ≤ c.confidence_score)
    (hh : ∀ x ∈ hzs, 0 ≤ x.confidence_score) :
    (∀ c ∈ get_nearby_speed_cameras gdist cams center radius mc vOnly lim,
      ¬(c.confidence_score < mc)) ∧
    (∀ x ∈ get_nearby_hazards gdist hzs center radius mc aOnly now lim,
      ¬(x.confidence_score < mc)) := by
  constructor
  · intro c hcmem
    have h4 := mem_get_nearby_speed_cameras hcmem
    rcases le_or_lt mc 0 with hmc | hmc
    · exact not_lt.mpr (hmc.trans (hc c h4.1))
    · exact not_lt.mpr (h4.2.2.1 hmc)
  · intro x hxmem
    have h4 := mem_get_nearby_hazards hxmem
    rcases le_or_lt mc 0 with hmc | hmc
    · exact not_lt.mpr (hmc.trans (hh x h4.1))
    · exact not_lt.mpr (h4.2.2.1 hmc)

/-- C4 witness: a returned camera at threshold one is not below it. -/
theorem C4_witness : ¬(camW.confidence_score < (1 : ℚ)) :=
  (C4_min_confidence_filter gdistTaxi [camW] [] ⟨13, 80⟩ 500 1 false false
    0 10 (by decide) (by decide)).1 camW (by decide)

/-- C5: a hazard whose expires_at is in the past at query time is excluded
from an activeOnly query even when is_active is true (first part; no
assumption on is_active is even needed); a hazard with no expiry and
is_active true passes the active filter (second part); and the record is not
deleted by expiry: the same query with activeOnly off still returns the
expired record, so expiry is decided at query time (third part). -/
theorem C5_hazard_expiry_query_time (gdist : Loc → Loc → ℚ)
    (hzs : List HazardDetection) (center : Loc) (radius mc now : ℚ)
    (lim : Nat) :
    (∀ (x : HazardDetection) (t : ℚ), x.expires_at = some t → t < now →
      x ∉ get_nearby_hazards gdist hzs center radius mc true now lim) ∧
    (∀ x : HazardDetection, x.is_active = true → x.expires_at = none →
      hazardActive now x = true) ∧
    (∀ x ∈ hzs, x.is_active = true → gdist x.location center ≤ radius →
      hzs.length ≤ lim → mc = 0 →
      x ∈ get_nearby_hazards gdist hzs center radius mc false now lim) := by
  refine ⟨fun x t hx ht hmem => ?_, fun x ha he => ?_,
    fun x hx _ hd hlen hmc => ?_⟩
  · have h4 := (mem_get_nearby_hazards hmem).2.2.2 rfl
    unfold hazardActive at h4
    rw [hx] at h4
    simp only [Bool.and_eq_true, decide_eq_true_eq] at h4
    exact absurd h4.2 (not_lt.mpr ht.le)
  · unfold hazardActive
    rw [ha, he]
    rfl
  · subst hmc
    have hfm : x ∈ hzs.filter (fun h => decide (gdist h.location center ≤ radius)) :=
      List.mem_filter.mpr ⟨hx, by simpa using hd⟩
    have hlen2 : (sortByKey (fun h => gdist h.location center)
        (hzs.filter (fun h => decide (gdist h.location center ≤ radius)))).length
          ≤ lim := by
      rw [(sortByKey_perm _ _).length_eq]
      exact (List.length_filter_le _ _).trans hlen
    unfold get_nearby_hazards
    simp only [lt_self_iff_false, if_false, Bool.false_eq_true]
    rw [List.take_of_length_le hlen2]
    exact (sortByKey_perm _ _).mem_iff.mpr hfm

/-- C5 witness: a concrete active hazard expired at time 5 is not returned by
an activeOnly query at time 10. -/
theorem C5_witness :
    hzW ∉ get_nearby_hazards gdistTaxi [hzW] ⟨13, 80⟩ 500 0 true 10 10 :=
  (C5_hazard_expiry_query_time gdistTaxi [hzW] ⟨13, 80⟩ 500 0 10 10).1 hzW 5
    (by decide) (by decide)

/-- C6: deleting through the camera delete endpoint fails with NotFound when
no camera has the id; fails with Forbidden when the stored reported_by is not
exactly the requester id, leaving the store unchanged with the camera still
present; and removes the record exactly when reported_by equals the requester
id. -/
theorem C6_delete_owner_only (store : List SpeedCamera) (cid rid : Nat) :
    (store.find? (fun c => c.id == cid) = none →
      delete_camera store cid rid = (DeleteOutcome.notFound, store)) ∧
    (∀ cam, store.find? (fun c => c.id == cid) = some cam →
      cam.reported_by ≠ some rid →
      delete_camera store cid rid = (DeleteOutcome.forbidden, store) ∧
        cam ∈ (delete_camera store cid rid).2) ∧
    (∀ cam, store.find? (fun c => c.id == cid) = some cam →
      cam.reported_by = some rid →
      delete_camera store cid rid =
        (DeleteOutcome.success, store.eraseP (fun c => c.id == cid))) := by
  refine ⟨fun hn => ?_, fun cam hf hne => ?_, fun cam hf heq => ?_⟩
  · unfold delete_camera
    rw [hn]
  · have hd := delete_camera_not_owner hf hne
    exact ⟨hd, by rw [hd]; exact List.mem_of_find?_eq_some hf⟩
  · have hb : (cam.reported_by == some rid) = true := by
      rw [heq]
      exact beq_self_eq_true _
    unfold delete_camera
    rw [hf]
    simp [hb]

/-- C6 witness: user 7 cannot delete the camera reported by user 5; the store
is unchanged and the camera still present. -/
theorem C6_witness :
    delete_camera [camO] 1 7 = (DeleteOutcome.forbidden, [camO]) ∧
      camO ∈ (delete_camera [camO] 1 7).2 :=
  (C6_delete_owner_only [camO] 1 7).2.1 camO (by decide) (by decide)

/-- C10: a camera whose reported_by is NULL, as bulk import produces, can
never be deleted through the endpoint: the ownership comparison fails for
every requester, the outcome is Forbidden, and the camera persists. -/
theorem C10_null_reporter_never_deletable (store : List SpeedCamera)
    (cid rid : Nat) (cam : SpeedCamera)
    (hfind : store.find? (fun c => c.id == cid) = some cam)
    (hnull : cam.reported_by = none) :
    delete_camera store cid rid = (DeleteOutcome.forbidden, store) ∧
    cam ∈ (delete_camera store cid rid).2 := by
  have hne : cam.reported_by ≠ some rid := by
    rw [hnull]
    exact fun h => Option.noConfusion h
  have hd := delete_camera_not_owner hfind hne
  exact ⟨hd, by rw [hd]; exact List.mem_of_find?_eq_some hfind⟩

/-- C10 witness: no requester, here user 3, can delete the imported camera
with a NULL reporter. -/
theorem C10_witness :
    delete_camera [camN] 1 3 = (DeleteOutcome.forbidden, [camN]) ∧
      camN ∈ (delete_camera [camN] 1 3).2 :=
  C10_null_reporter_never_deletable [camN] 1 3 camN (by decide) (by decide)

/-- C9: the combined navigation aggregate is all-or-nothing: an aggregate is
returned only when every category query succeeded, carrying exactly those
results with matching per-category counts, and if any category query failed
the whole call fails. -/
theorem C9_navigation_all_or_nothing
    (cams : Except String (List SpeedCamera))
    (speed_lims : Except String (List RoadSpeedLimit))
    (hzs : Except String (List HazardDetection))
    (roads : Except String (List HazardousRoadSegment)) :
    (∀ agg, get_navigation_data_nearby cams speed_lims hzs roads
        = Except.ok agg →
      cams = Except.ok agg.cameras ∧ speed_lims = Except.ok agg.speed_limits ∧
      hzs = Except.ok agg.hazards ∧ roads = Except.ok agg.hazardous_roads ∧
      agg.counts = ⟨agg.cameras.length, agg.speed_limits.length,
        agg.hazards.length, agg.hazardous_roads.length⟩) ∧
    ((exceptOk cams = false ∨ exceptOk speed_lims = false ∨
        exceptOk hzs = false ∨ exceptOk roads = false) →
      exceptOk (get_navigation_data_nearby cams speed_lims hzs roads)
        = false) := by
  cases cams <;> cases speed_lims <;> cases hzs <;> cases roads <;>
    simp [get_navigation_data_nearby, exceptOk, Bind.bind, Except.bind,
      Pure.pure, Except.pure]

/-- C9 witness: a failing camera query fails the whole aggregate call. -/
theorem C9_witness :
    exceptOk (get_navigation_data_nearby (Except.error "boom")
      (Except.ok ([] : List RoadSpeedLimit))
      (Except.ok ([] : List HazardDetection))
      (Except.ok ([] : List HazardousRoadSegment))) = false :=
  (C9_navigation_all_or_nothing _ _ _ _).2 (Or.inl rfl)

/-- C2 counterexample: the claim states that a camera create request with an
out-of-range speed limit, direction, or unknown camera type fails with a
ValidationError and creates no entity. The code path has no such validation:
this request with speed limit 500, camera type drone and direction 999 is
accepted and an entity carrying exactly those values is inserted. -/
theorem C2_counterexample :
    ((create_camera [] 0 7 badReq).2).length = 1 ∧
    (create_camera [] 0 7 badReq).1.speed_limit_kmh = 500 ∧
    (create_camera [] 0 7 badReq).1.camera_type = "drone" ∧
    (create_camera [] 0 7 badReq).1.direction_degrees = some 999 := by
  refine ⟨rfl, rfl, rfl, rfl⟩

/-- C2 amended: the camera create path performs no field-range or enum
validation at all: every type-correct request creates exactly one entity
carrying the submitted values unchanged, with server-fixed confidence 0.50,
verified false, and the requester recorded as reporter. -/
theorem C2_amended_no_validation (store : List SpeedCamera)
    (freshId userId : Nat) (req : CreateCameraRequest) :
    (create_camera store freshId userId req).2
        = store ++ [(create_camera store freshId userId req).1] ∧
    (create_camera store freshId userId req).1.location
        = ⟨req.latitude, req.longitude⟩ ∧
    (create_camera store freshId userId req).1.speed_limit_kmh
        = req.speed_limit_kmh ∧
    (create_camera store freshId userId req).1.camera_type = req.camera_type ∧
    (create_camera store freshId userId req).1.direction_degrees
        = req.direction_degrees ∧
    (create_camera store freshId userId req).1.confidence_score = 1/2 ∧
    (create_camera store freshId userId req).1.verified = false ∧
    (create_camera store freshId userId req).1.reported_by = some userId :=
  ⟨rfl, rfl, rfl, rfl, rfl, rfl, rfl, rfl⟩

/-- C8: creation defaults depend on the source: a camera inserted by the
bulk importer carries confidence_score 0.80, verified true and
verification_count 1, while a camera created through the user submission
endpoint carries confidence_score 0.50 and verified false. -/
theorem C8_source_dependent_defaults (gdist : Loc → Loc → ℚ)
    (store : List SpeedCamera) (sub : CameraSubmission)
    (hco : (-90 ≤ sub.latitude ∧ sub.latitude ≤ 90) ∧
      (-180 ≤ sub.longitude ∧ sub.longitude ≤ 180))
    (hnew : ∀ c ∈ store, ¬(gdist c.location ⟨sub.latitude, sub.longitude⟩ ≤ 10)) :
    ((import_speed_cameras gdist store [sub]).committed.map
        (fun c => (c.confidence_score, c.verified, c.verification_count))
      = store.map (fun c => (c.confidence_score, c.verified, c.verification_count))
          ++ [(4/5, true, 1)]) ∧
    (∀ (store' : List SpeedCamera) (freshId userId : Nat)
        (req : CreateCameraRequest),
      (create_camera store' freshId userId req).1.confidence_score = 1/2 ∧
      (create_camera store' freshId userId req).1.verified = false) := by
  refine ⟨?_, fun store' freshId userId req => ⟨rfl, rfl⟩⟩
  rw [import_speed_cameras_single hco hnew]
  simp [importedCamera]

/-- C8 witness: one concrete import into an empty store. -/
theorem C8_witness :
    (import_speed_cameras gdistTaxi [] [subW]).committed.map
        (fun c => (c.confidence_score, c.verified, c.verification_count))
      = ([] : List SpeedCamera).map
          (fun c => (c.confidence_score, c.verified, c.verification_count))
          ++ [(4/5, true, 1)] :=
  (C8_source_dependent_defaults gdistTaxi [] subW (by decide) (by simp)).1

/-- C1 counterexample: the claim states that after two submissions within 10
meters are ingested, exactly one camera exists with verification_count 2. On
the code, two identical submissions in one import run are both inserted
because the session has autoflush off and the dedup SELECT misses the pending
row, giving two entities; and when the second submission arrives after the
first is committed, it is skipped outright, leaving one entity with
verification_count 1, not 2. Both runs here use a distance function that is
identically zero, so the two points are within every tolerance. -/
theorem C1_counterexample :
    (import_speed_cameras (fun _ _ => 0) [] [subW, subW]).committed.length
        = 2 ∧
    (import_speed_cameras (fun _ _ => 0)
        (import_speed_cameras (fun _ _ => 0) [] [subW]).committed
        [subW]).committed.map SpeedCamera.verification_count = [1] := by
  decide

/-- C1 amended: when the second of two submissions within 10 meters is
ingested after the first has been committed, exactly one camera entity
exists for that location afterward, but the second submission is skipped
outright rather than treated as a confirmation: the entity keeps
verification_count 1 and nothing about it changes. -/
theorem C1_amended_dedup_skips (gdist : Loc → Loc → ℚ)
    (store : List SpeedCamera) (s1 s2 : CameraSubmission)
    (h1 : (-90 ≤ s1.latitude ∧ s1.latitude ≤ 90) ∧
      (-180 ≤ s1.longitude ∧ s1.longitude ≤ 180))
    (hnew : ∀ c ∈ store, ¬(gdist c.location ⟨s1.latitude, s1.longitude⟩ ≤ 10))
    (hclose : gdist ⟨s1.latitude, s1.longitude⟩ ⟨s2.latitude, s2.longitude⟩ ≤ 10) :
    ((import_speed_cameras gdist store [s1]).committed.length
        = store.length + 1) ∧
    ((import_speed_cameras gdist store [s1]).committed.map
        SpeedCamera.verification_count
      = store.map SpeedCamera.verification_count ++ [1]) ∧
    (import_speed_cameras gdist
        (import_speed_cameras gdist store [s1]).committed [s2]).committed
      = (import_speed_cameras gdist store [s1]).committed := by
  have h1r := import_speed_cameras_single h1 hnew
  rw [h1r]
  refine ⟨by simp, by simp [importedCamera], ?_⟩
  have hdup : ∃ c ∈ store ++ [importedCamera store.length s1],
      gdist c.location ⟨s2.latitude, s2.longitude⟩ ≤ 10 :=
    ⟨importedCamera store.length s1, by simp,
      by simpa [importedCamera] using hclose⟩
  rw [import_speed_cameras_single_dup hdup]

/-- C1 witness: one concrete submission imported, then re-imported. -/
theorem C1_witness :
    ((import_speed_cameras gdistTaxi [] [subW]).committed.length
        = ([] : List SpeedCamera).length + 1) ∧
    ((import_speed_cameras gdistTaxi [] [subW]).committed.map
        SpeedCamera.verification_count
      = ([] : List SpeedCamera).map SpeedCamera.verification_count ++ [1]) ∧
    (import_speed_cameras gdistTaxi
        (import_speed_cameras gdistTaxi [] [subW]).committed [subW]).committed
      = (import_speed_cameras gdistTaxi [] [subW]).committed :=
  C1_amended_dedup_skips gdistTaxi [] subW subW (by decide) (by simp)
    (by decide)

/-- C7 counterexample: the claim states that a zone element whose osm_id is
already present in the store is always skipped, so importing a dataset twice
yields the same entity count as once. The pre-fetch keeps only truthy ids, so
an empty-string osm_id already stored is not loaded into the seen set and the
element is inserted again: the second import of the same one-element dataset
raises the count from 1 to 2. -/
theorem C7_counterexample :
    (import_zones [] [emptyIdElem]).length = 1 ∧
    (import_zones (import_zones [] [emptyIdElem]) [emptyIdElem]).length = 2 := by
  decide

/-- C7 amended: zone import dedup is keyed on truthy external ids: for a
dataset whose element ids are all non-empty strings, an id already present in
the store or seen earlier in the run is skipped without creating or modifying
any record, and importing the dataset twice leaves the store of the first
run exactly unchanged; an empty-string id defeats the cross-run pre-fetch
and is re-inserted. -/
theorem C7_amended_idempotent_nonempty_ids (store : List SchoolZone)
    (es : List OsmElement) (hids : ∀ e ∈ es, e.osm_id ≠ "") :
    import_zones (import_zones store es) es = import_zones store es := by
  unfold import_zones
  refine zoneRun_noop es ⟨store, existingOsmIds store, 0⟩ _ _ 0 hids ?_ ?_
  · exact existingOsmIds_mono
      ((zoneRun_store_grows es ⟨store, existingOsmIds store, 0⟩).subset)
  · exact List.Subset.refl _

/-- C7 witness: a concrete one-element dataset with a non-empty id imported
twice. -/
theorem C7_witness :
    import_zones (import_zones [] [goodIdElem]) [goodIdElem]
      = import_zones [] [goodIdElem] :=
  C7_amended_idempotent_nonempty_ids [] [goodIdElem] (by decide)

end SpeedCam
